import Mathlib

/-!
Verification of the Lumina browser controllers (authentication manager,
conversation controller, history sidecar) against their natural-language
specification.  Each JavaScript handler is embedded as a pure Lean function
on an explicit state record; asynchronous interleavings are modelled as
lists of events folded over the state.
-/

set_option maxRecDepth 4000

/-- JavaScript `a || b` on an optional string: `null`/`undefined` and the
empty string are falsy, so they fall through to the default. -/
def jsOr (o : Option String) (d : String) : String :=
  match o with
  | some x => if x = "" then d else x
  | none => d

/-- The whitespace characters stripped by the JavaScript `trim()` used on
the form inputs (ASCII subset: space, tab, line feed, carriage return,
vertical tab, form feed). -/
def jsWhitespace (c : Char) : Bool :=
  c = ' ' || c = '\t' || c = '\n' || c = '\r' || c = '\x0b' || c = '\x0c'

/-- JavaScript `String.prototype.trim()`: drop leading and trailing
whitespace. -/
def jsTrim (s : String) : String :=
  ⟨((s.data.dropWhile jsWhitespace).reverse.dropWhile jsWhitespace).reverse⟩

namespace Part000
/-!
Model of the module-SDK `AuthManager` (src/unnamed/part_000): the
`onAuthStateChanged` listener installed by `checkAuthState`, and the
`handleLogin` / `handleRegister` / `handleLogout` flows decomposed at their
`await` points into trace events.
-/

/-- A provider user as the handlers read it: `displayName` may be absent. -/
structure User where
  displayName : Option String
  email : String
deriving Repr, DecidableEq

/-- Network requests issued by the handlers, in issue order. -/
inductive NetCall where
  | providerSignIn (email password : String)
  | providerSignUp (email password : String)
  | backendVerify
  | providerSignOut
  | backendLogout
deriving Repr, DecidableEq

/-- Observable DOM/controller state touched by part_000: element display
values, the user-name label, the error banner and the call log. -/
structure AuthState where
  currentUser : Option User
  authModalDisplay : String
  mainAppDisplay : String
  userNameText : String
  errorText : String
  errorDisplay : String
  loadingDisplay : String
  calls : List NetCall
deriving Repr, DecidableEq

/-- State at page load, before any event has fired. -/
def initState : AuthState :=
  { currentUser := none
  , authModalDisplay := ""
  , mainAppDisplay := ""
  , userNameText := ""
  , errorText := ""
  , errorDisplay := ""
  , loadingDisplay := ""
  , calls := [] }

/-- `handleAuthSuccess(user)`: hide the auth modal, show the main app,
set the welcome label from displayName-or-email. -/
def handleAuthSuccess (u : User) (s : AuthState) : AuthState :=
  { s with currentUser := some u
         , authModalDisplay := "none"
         , mainAppDisplay := "block"
         , userNameText := "Welcome, " ++ jsOr u.displayName u.email ++ "!" }

/-- `showAuthModal()`: show the modal, hide the main app. -/
def showAuthModal (s : AuthState) : AuthState :=
  { s with authModalDisplay := "block", mainAppDisplay := "none" }

/-- `showError(message)`. -/
def showError (m : String) (s : AuthState) : AuthState :=
  { s with errorText := m, errorDisplay := "block" }

/-- `clearError()`. -/
def clearError (s : AuthState) : AuthState :=
  { s with errorDisplay := "none" }

/-- `showLoading(show)`. -/
def showLoading (b : Bool) (s : AuthState) : AuthState :=
  { s with loadingDisplay := if b then "block" else "none" }

/-- Append a network request to the call log. -/
def recordCall (c : NetCall) (s : AuthState) : AuthState :=
  { s with calls := s.calls ++ [c] }

/-- Result of the backend `/auth/verify` fetch as `handleLogin` and
`handleRegister` read it: `success` boolean plus an optional `error` field. -/
inductive VerifyResult where
  | success
  | failure (error : Option String)
deriving Repr, DecidableEq

/-- The asynchronous events the part_000 controller reacts to, one per
handler entry point or `await` resumption. -/
inductive Event where
  /-- the `onAuthStateChanged` callback fires with the current session -/
  | sessionChange (u : Option User)
  /-- login form submitted: `showLoading(true)`, `clearError()`, then the
  provider sign-in request is issued (part_000 has no input validation) -/
  | loginSubmit (email password : String)
  /-- `signInWithEmailAndPassword` resolved: the token is fetched and the
  backend verify request is issued -/
  | providerSignInOk
  /-- `signInWithEmailAndPassword` threw: catch shows `error.message`,
  finally hides the loading indicator -/
  | providerSignInErr (msg : String)
  /-- the `/auth/verify` response for credential user `u` arrived -/
  | verifyResponse (u : User) (r : VerifyResult)
  /-- register form submitted: length check, then provider sign-up issued -/
  | registerSubmit (name email password : String)
  /-- logout button clicked: the provider sign-out request is issued -/
  | logoutSubmit
  /-- `signOut` resolved: the backend logout request is issued -/
  | providerSignOutOk
  /-- `signOut` threw: caught and only logged, so the backend logout line
  is never reached -/
  | providerSignOutErr
  /-- the `/auth/logout` fetch resolved: `showAuthModal()` runs -/
  | backendLogoutOk
  /-- the `/auth/logout` fetch threw: caught and only logged -/
  | backendLogoutErr
deriving Repr, DecidableEq

/-- Effect of one event on the controller state, read off the source of
`checkAuthState`, `handleLogin`, `handleRegister` and `handleLogout`. -/
def step (e : Event) (s : AuthState) : AuthState :=
  match e with
  | .sessionChange u =>
      match u with
      | some user => handleAuthSuccess user s
      | none => showAuthModal s
  | .loginSubmit email password =>
      recordCall (.providerSignIn email password) (clearError (showLoading true s))
  | .providerSignInOk =>
      recordCall .backendVerify s
  | .providerSignInErr msg =>
      showLoading false (showError msg s)
  | .verifyResponse u r =>
      match r with
      | .success => showLoading false (handleAuthSuccess u s)
      | .failure err => showLoading false (showError (jsOr err "Login failed") s)
  | .registerSubmit _name email password =>
      if password.length < 6 then
        showError "Password must be at least 6 characters" s
      else
        recordCall (.providerSignUp email password) (clearError (showLoading true s))
  | .logoutSubmit =>
      recordCall .providerSignOut s
  | .providerSignOutOk =>
      recordCall .backendLogout s
  | .providerSignOutErr => s
  | .backendLogoutOk => showAuthModal s
  | .backendLogoutErr => s

/-- Run a trace of events from a state. -/
def run (es : List Event) (s : AuthState) : AuthState :=
  es.foldl (fun s e => step e s) s

end Part000

namespace CompatAuth
/-!
Model of the compat-SDK `AuthManager` (src/static/js/auth.js).  Its
`handleLogin` and `handleRegister` validate inputs locally before any
network request; the outcomes of the provider call and of the backend
verify fetch are passed in as parameters standing for the resolved
promises.
-/

/-- A thrown provider error as `getErrorMessage` reads it. -/
structure JsError where
  code : Option String
  message : Option String
deriving Repr, DecidableEq

/-- The fixed code-to-message table of `getErrorMessage`. -/
def errorTable : List (String × String) :=
  [ ("auth/user-not-found", "No account found with this email")
  , ("auth/wrong-password", "Incorrect password")
  , ("auth/email-already-in-use", "Account already exists with this email")
  , ("auth/weak-password", "Password must be at least 6 characters")
  , ("auth/invalid-email", "Please enter a valid email address") ]

/-- `getErrorMessage(error)`: table entry, else the raw provider message,
else a generic fallback. -/
def getErrorMessage (e : JsError) : String :=
  match e.code with
  | some c =>
      match errorTable.lookup c with
      | some m => m
      | none => jsOr e.message "An error occurred"
  | none => jsOr e.message "An error occurred"

/-- Outcome of the provider sign-in / sign-up promise. -/
inductive ProviderOutcome where
  | ok (u : Part000.User)
  | err (e : JsError)
deriving Repr, DecidableEq

/-- Observable state of the compat manager: error banner, loading
indicator, modal display, whether `location.reload()` was scheduled, and
the network call log. -/
structure AuthState where
  initialized : Bool
  errorText : String
  errorDisplay : String
  loadingDisplay : String
  modalDisplay : String
  reloadScheduled : Bool
  calls : List Part000.NetCall
deriving Repr, DecidableEq

/-- `showError(message)`. -/
def showError (m : String) (s : AuthState) : AuthState :=
  { s with errorText := m, errorDisplay := "block" }

/-- `clearError()`. -/
def clearError (s : AuthState) : AuthState :=
  { s with errorDisplay := "none" }

/-- `showLoading(show)`. -/
def showLoading (b : Bool) (s : AuthState) : AuthState :=
  { s with loadingDisplay := if b then "block" else "none" }

/-- `hideAuthModal()` (also clears the error banner and the form fields). -/
def hideAuthModal (s : AuthState) : AuthState :=
  clearError { s with modalDisplay := "none" }

/-- Append a network request to the call log. -/
def recordCall (c : Part000.NetCall) (s : AuthState) : AuthState :=
  { s with calls := s.calls ++ [c] }

/-- `handleLogin()` of auth.js, with the raw form field values as inputs
(the source trims the email before testing it) and the promise outcomes as
parameters.  Validation failure returns before any request is issued. -/
def handleLogin (emailRaw password : String) (signIn : ProviderOutcome)
    (verify : Part000.VerifyResult) (s : AuthState) : AuthState :=
  if ¬ s.initialized then
    showError "Firebase not ready. Please refresh the page." s
  else
    let email := jsTrim emailRaw
    if email = "" ∨ password = "" then
      showError "Please fill in all fields" s
    else
      let s := clearError (showLoading true s)
      let s := recordCall (.providerSignIn email password) s
      match signIn with
      | .err e => showLoading false (showError (getErrorMessage e) s)
      | .ok _u =>
          let s := recordCall .backendVerify s
          match verify with
          | .success => showLoading false { hideAuthModal s with reloadScheduled := true }
          | .failure err => showLoading false (showError (jsOr err "Login failed") s)

/-- `handleRegister()` of auth.js: requires all three fields non-empty and
a password of at least 6 characters before any request is issued. -/
def handleRegister (nameRaw emailRaw password : String) (signUp : ProviderOutcome)
    (verify : Part000.VerifyResult) (s : AuthState) : AuthState :=
  if ¬ s.initialized then
    showError "Firebase not ready. Please refresh the page." s
  else
    let name := jsTrim nameRaw
    let email := jsTrim emailRaw
    if name = "" ∨ email = "" ∨ password = "" then
      showError "Please fill in all fields" s
    else if password.length < 6 then
      showError "Password must be at least 6 characters" s
    else
      let s := clearError (showLoading true s)
      let s := recordCall (.providerSignUp email password) s
      match signUp with
      | .err e => showLoading false (showError (getErrorMessage e) s)
      | .ok _u =>
          let s := recordCall .backendVerify s
          match verify with
          | .success => showLoading false { hideAuthModal s with reloadScheduled := true }
          | .failure err => showLoading false (showError (jsOr err "Registration failed") s)

end CompatAuth

namespace ModernChat
/-!
Model of the `ModernChat` conversation controller (src/static/js/main.js):
`addMessage`, the typing indicator, and `sendMessage` with the resolved
fetch outcome as a parameter.  The markdown substitution of
`formatMessage` and the scroll position are presentation-only and the
message content is carried verbatim.
-/

/-- A citation attached to an assistant message; its fields are
presentation-only payload here. -/
structure Source where
  page_number : Option Int
  confidence10 : Option Int
deriving Repr, DecidableEq

/-- Children of the chat-messages container. -/
inductive Node where
  | msg (type : String) (content : String) (sources : List Source)
  | typing
  | welcome
deriving Repr, DecidableEq

/-- Requests issued by the conversation controller and the sidecar. -/
inductive ChatCall where
  | send (message : String) (conversation_id : Option String)
  | historyFetch
  | conversationFetch (id : String)
deriving Repr, DecidableEq

/-- Observable state of the conversation controller. -/
structure ChatState where
  currentConversationId : Option String
  isTyping : Bool
  chatInputValue : String
  nodes : List Node
  chatTitle : String
  sendBtnDisabled : Bool
  calls : List ChatCall
deriving Repr, DecidableEq

/-- JavaScript falsiness of the conversation id: absent or empty string. -/
def idFalsy (o : Option String) : Bool :=
  match o with
  | none => true
  | some x => x = ""

/-- The title ternary of `addMessage`: truncate to 50 characters and
append an ellipsis when longer. -/
def deriveTitle (content : String) : String :=
  if content.length > 50 then content.take 50 ++ "..." else content

/-- `addMessage(type, content, sources)`: append one message node; when it
is a user message and no conversation id is set yet, update the chat
title from the content. -/
def addMessage (type content : String) (sources : Option (List Source))
    (s : ChatState) : ChatState :=
  let s := { s with nodes := s.nodes ++ [Node.msg type content (sources.getD [])] }
  if type = "user" ∧ idFalsy s.currentConversationId then
    { s with chatTitle := deriveTitle content }
  else s

/-- `showTypingIndicator()`: guarded by `isTyping`, appends one indicator. -/
def showTypingIndicator (s : ChatState) : ChatState :=
  if s.isTyping then s
  else { s with isTyping := true, nodes := s.nodes ++ [Node.typing] }

/-- `hideTypingIndicator()`: remove the indicator node, reset the flag. -/
def hideTypingIndicator (s : ChatState) : ChatState :=
  { s with isTyping := false
         , nodes := s.nodes.eraseP (fun n => n == Node.typing) }

/-- The resolved `/chat/send` exchange: parsed response or transport error. -/
inductive SendOutcome where
  | ok (response : String) (conversation_id : Option String) (sources : Option (List Source))
  | fail (error : Option String)
  | netErr
deriving Repr, DecidableEq

/-- JavaScript template interpolation of an optional field: an absent
value prints as the string undefined. -/
def jsInterp (o : Option String) : String :=
  match o with
  | some x => x
  | none => "undefined"

/-- `sendMessage()` of ModernChat: single-flight guard, optimistic user
message, pending indicator, then the branches on the fetch outcome. -/
def sendMessage (outcome : SendOutcome) (s : ChatState) : ChatState :=
  let message := jsTrim s.chatInputValue
  if message = "" ∨ s.isTyping then s
  else
    let s := addMessage "user" message none s
    let s := { s with chatInputValue := "" }
    let s := { s with sendBtnDisabled := true }
    let s := showTypingIndicator s
    let s := { s with calls := s.calls ++ [ChatCall.send message s.currentConversationId] }
    match outcome with
    | .ok resp cid srcs =>
        let s := hideTypingIndicator s
        let s := addMessage "assistant" resp srcs s
        let s := { s with currentConversationId := cid }
        let s := { s with calls := s.calls ++ [ChatCall.historyFetch] }
        { s with sendBtnDisabled := false }
    | .fail err =>
        let s := hideTypingIndicator s
        let s := addMessage "assistant"
          ("Sorry, I encountered an error: " ++ jsInterp err) none s
        { s with sendBtnDisabled := false }
    | .netErr =>
        let s := hideTypingIndicator s
        let s := addMessage "assistant"
          "Sorry, I encountered a connection error. Please try again." none s
        { s with sendBtnDisabled := false }

end ModernChat

namespace HistoryMgr
/-!
Model of the `HistoryManager` sidecar (src/static/js/history-manager.js):
`formatTimeAgo`, `loadConversation`, `renderConversation` and
`updateActiveHistory`.  Timestamps are millisecond integers; the absolute
localized date of the final branch is passed in as a string parameter.
-/

/-- A conversation summary row from `/chat/history`. -/
structure Conversation where
  conversation_id : String
  title : String
  message_count : Nat
  updated_at : Int
deriving Repr, DecidableEq

/-- A rendered history-item DOM node: its conversation-id dataset value
and whether the active class is present. -/
structure HistoryItem where
  conversationId : String
  active : Bool
  title : String
deriving Repr, DecidableEq

/-- A message as returned by `/chat/conversation/{id}`. -/
structure ServerMessage where
  role : String
  content : String
  sources : Option (List ModernChat.Source)
deriving Repr, DecidableEq

/-- Observable state of the sidecar. -/
structure HistState where
  conversations : List Conversation
  currentConversationId : Option String
  items : List HistoryItem
deriving Repr, DecidableEq

/-- `formatTimeAgo(dateString)`: bucket the elapsed milliseconds with
`Math.floor` (flooring division), falling through to the localized
absolute date. -/
def formatTimeAgo (nowMs dateMs : Int) (localeDate : String) : String :=
  let diffMs := nowMs - dateMs
  let diffMins := diffMs.fdiv 60000
  if diffMins < 1 then "Just now"
  else if diffMins < 60 then toString diffMins ++ "m ago"
  else
    let diffHours := diffMins.fdiv 60
    if diffHours < 24 then toString diffHours ++ "h ago"
    else
      let diffDays := diffHours.fdiv 24
      if diffDays < 7 then toString diffDays ++ "d ago"
      else localeDate

/-- `renderConversation(messages)`: clear the transcript container, then
replay every message through `ModernChat.addMessage` in order, mapping
the role user to the user node type and anything else to bot. -/
def renderConversation (msgs : List ServerMessage)
    (cs : ModernChat.ChatState) : ModernChat.ChatState :=
  let cs := { cs with nodes := [] }
  msgs.foldl (fun cs m =>
    ModernChat.addMessage (if m.role = "user" then "user" else "bot")
      m.content m.sources cs) cs

/-- `updateActiveHistory()`: strip the active class everywhere, then set
it exactly on items whose dataset id equals the current conversation id. -/
def updateActiveHistory (hs : HistState) : HistState :=
  { hs with items := hs.items.map (fun it =>
      { it with active := some it.conversationId == hs.currentConversationId }) }

/-- Resolution of the `/chat/conversation/{id}` fetch. -/
inductive FetchConv where
  | ok (messages : List ServerMessage)
  | fail
  | netErr
deriving Repr, DecidableEq

/-- `loadConversation(conversationId)`: on success adopt the id, replay
the messages, refresh the active highlight and push the cached title to
the conversation controller; a failed response or thrown fetch changes
nothing (the error is only logged). -/
def loadConversation (id : String) (world : FetchConv)
    (hs : HistState) (cs : ModernChat.ChatState) :
    HistState × ModernChat.ChatState :=
  match world with
  | .ok msgs =>
      let hs := { hs with currentConversationId := some id }
      let cs := renderConversation msgs cs
      let hs := updateActiveHistory hs
      let cs :=
        match hs.conversations.find? (fun c => c.conversation_id == id) with
        | some c => { cs with chatTitle := c.title }
        | none => cs
      (hs, cs)
  | .fail => (hs, cs)
  | .netErr => (hs, cs)

/-- The message node one server message becomes when replayed through
`ModernChat.addMessage` by `renderConversation`. -/
def serverNode (m : ServerMessage) : ModernChat.Node :=
  .msg (if m.role = "user" then "user" else "bot") m.content (m.sources.getD [])

end HistoryMgr

/-! ## Theorems -/

/-- C10: for every timestamp lying in the future relative to the current
time (negative elapsed milliseconds), formatTimeAgo returns "Just now":
the floored negative minute difference is strictly less than 1, so the
first bucket absorbs all future inputs. -/
theorem future_timestamps_render_just_now (now date : Int) (loc : String)
    (h : now - date < 0) :
    HistoryMgr.formatTimeAgo now date loc = "Just now" := by
  have e : ∀ a b : Int, 0 ≤ b → a.fdiv b = a / b := fun a b hb => Int.fdiv_eq_ediv a hb
  simp only [HistoryMgr.formatTimeAgo, e _ 60000 (by norm_num)]
  rw [if_pos (by omega)]

/-- C10 witness: a timestamp one minute in the future renders as Just now. -/
theorem future_timestamps_render_just_now_witness :
    (1000 : Int) - 61000 < 0 ∧
    HistoryMgr.formatTimeAgo 1000 61000 "Jan 1" = "Just now" :=
  ⟨by decide, future_timestamps_render_just_now 1000 61000 "Jan 1" (by decide)⟩

/-- C6: formatTimeAgo computes buckets by flooring division of the elapsed
milliseconds: under 60 seconds gives "Just now", under 60 minutes gives
minutes ago, under 24 hours gives hours ago, under 7 days gives days ago,
otherwise the localized date; the bucket counts agree with direct integer
division of the elapsed milliseconds. -/
theorem formatTimeAgo_buckets (now date : Int) (loc : String) :
    (now - date < 60000 →
      HistoryMgr.formatTimeAgo now date loc = "Just now") ∧
    (60000 ≤ now - date → now - date < 3600000 →
      HistoryMgr.formatTimeAgo now date loc = toString ((now - date) / 60000) ++ "m ago") ∧
    (3600000 ≤ now - date → now - date < 86400000 →
      HistoryMgr.formatTimeAgo now date loc = toString ((now - date) / 3600000) ++ "h ago") ∧
    (86400000 ≤ now - date → now - date < 604800000 →
      HistoryMgr.formatTimeAgo now date loc = toString ((now - date) / 86400000) ++ "d ago") ∧
    (604800000 ≤ now - date → HistoryMgr.formatTimeAgo now date loc = loc) := by
  have e : ∀ a b : Int, 0 ≤ b → a.fdiv b = a / b := fun a b hb => Int.fdiv_eq_ediv a hb
  simp only [HistoryMgr.formatTimeAgo, e _ 60000 (by norm_num), e _ 60 (by norm_num),
    e _ 24 (by norm_num)]
  set d := now - date with hd
  refine ⟨?_, ?_, ?_, ?_, ?_⟩ <;> intro h1 <;> try intro h2
  · rw [if_pos (by omega)]
  · rw [if_neg (by omega), if_pos (by omega)]
  · rw [if_neg (by omega), if_neg (by omega), if_pos (by omega)]
    have h3 : d / 60000 / 60 = d / 3600000 := by omega
    rw [h3]
  · rw [if_neg (by omega), if_neg (by omega), if_neg (by omega), if_pos (by omega)]
    have h3 : d / 60000 / 60 / 24 = d / 86400000 := by omega
    rw [h3]
  · rw [if_neg (by omega), if_neg (by omega), if_neg (by omega), if_neg (by omega)]

/-- C6 witness: the boundary cases 59 seconds, 60 seconds, 3599 seconds
and 3600 seconds. -/
theorem formatTimeAgo_buckets_witness :
    HistoryMgr.formatTimeAgo 59000 0 "Jan 1" = "Just now" ∧
    HistoryMgr.formatTimeAgo 60000 0 "Jan 1" = "1m ago" ∧
    HistoryMgr.formatTimeAgo 3599000 0 "Jan 1" = "59m ago" ∧
    HistoryMgr.formatTimeAgo 3600000 0 "Jan 1" = "1h ago" :=
  ⟨(formatTimeAgo_buckets 59000 0 "Jan 1").1 (by decide),
   ((formatTimeAgo_buckets 60000 0 "Jan 1").2.1 (by decide) (by decide)).trans (by decide),
   ((formatTimeAgo_buckets 3599000 0 "Jan 1").2.1 (by decide) (by decide)).trans (by decide),
   ((formatTimeAgo_buckets 3600000 0 "Jan 1").2.2.1 (by decide) (by decide)).trans (by decide)⟩

/-- C5: sendMessage is a no-op when the input is empty or whitespace-only
after trimming, or when a send is already pending (isTyping): the whole
state is unchanged, so no user message is appended, the rendered node
count is unchanged and no backend call is issued. -/
theorem sendMessage_noop_on_blank_or_pending (outcome : ModernChat.SendOutcome)
    (s : ModernChat.ChatState)
    (h : jsTrim s.chatInputValue = "" ∨ s.isTyping = true) :
    ModernChat.sendMessage outcome s = s := by
  unfold ModernChat.sendMessage
  rw [if_pos h]

/-- C5 witness: a whitespace-only input, and a pending send, each leave a
concrete state untouched. -/
theorem sendMessage_noop_on_blank_or_pending_witness :
    (ModernChat.sendMessage .netErr
      { currentConversationId := none, isTyping := false, chatInputValue := "   "
      , nodes := [], chatTitle := "", sendBtnDisabled := true, calls := [] }
      = { currentConversationId := none, isTyping := false, chatInputValue := "   "
        , nodes := [], chatTitle := "", sendBtnDisabled := true, calls := [] }) ∧
    (ModernChat.sendMessage (.ok "hi" (some "c1") none)
      { currentConversationId := none, isTyping := true, chatInputValue := "hello"
      , nodes := [ModernChat.Node.typing], chatTitle := "", sendBtnDisabled := true, calls := [] }
      = { currentConversationId := none, isTyping := true, chatInputValue := "hello"
        , nodes := [ModernChat.Node.typing], chatTitle := "", sendBtnDisabled := true, calls := [] }) :=
  ⟨sendMessage_noop_on_blank_or_pending _ _ (Or.inl (by decide)),
   sendMessage_noop_on_blank_or_pending _ _ (Or.inr (by decide))⟩

/-- C9: a failed send, whether a response with success false or a thrown
fetch, leaves the active conversation id unchanged: only the success
branch of sendMessage assigns the returned conversation id. -/
theorem failed_send_preserves_conversation_id (s : ModernChat.ChatState)
    (err : Option String) :
    (ModernChat.sendMessage (.fail err) s).currentConversationId
      = s.currentConversationId ∧
    (ModernChat.sendMessage .netErr s).currentConversationId
      = s.currentConversationId := by
  constructor <;>
    · by_cases hg : jsTrim s.chatInputValue = "" ∨ s.isTyping = true
      · rw [ModernChat.sendMessage, if_pos hg]
      · rw [ModernChat.sendMessage, if_neg hg]
        simp only [ModernChat.addMessage, ModernChat.showTypingIndicator,
          ModernChat.hideTypingIndicator]
        split_ifs <;> rfl

/-- C7: the title ternary of addMessage leaves a first user message of a
not-yet-persisted conversation unchanged when it has at most 50
characters, and truncates to the first 50 characters plus an ellipsis
(53 characters in all) when it is longer. -/
theorem title_derivation_truncates_at_50 (s : ModernChat.ChatState)
    (content : String) (h : s.currentConversationId = none) :
    ((ModernChat.addMessage "user" content none s).chatTitle
        = ModernChat.deriveTitle content) ∧
    (content.length ≤ 50 → ModernChat.deriveTitle content = content) ∧
    (50 < content.length →
      ModernChat.deriveTitle content = content.take 50 ++ "..." ∧
      (ModernChat.deriveTitle content).length = 53) := by
  refine ⟨?_, ?_, ?_⟩
  · rw [ModernChat.addMessage]
    rw [if_pos ⟨rfl, by rw [h]; rfl⟩]
  · intro hle
    rw [ModernChat.deriveTitle, if_neg (by omega)]
  · intro hgt
    rw [ModernChat.deriveTitle, if_pos (by omega)]
    refine ⟨rfl, ?_⟩
    rw [String.length_append, String.take_eq]
    rw [show (String.mk (content.data.take 50)).length = (content.data.take 50).length from rfl]
    rw [List.length_take]
    rw [show ("..." : String).length = 3 from rfl]
    rw [show content.length = content.data.length from rfl] at hgt
    omega

/-- C7 witness: a 40-character first message is kept verbatim as the
title; a 60-character one yields the first 50 characters plus an
ellipsis. -/
theorem title_derivation_truncates_at_50_witness :
    ((ModernChat.addMessage "user" "0123456789012345678901234567890123456789"
        none { currentConversationId := none, isTyping := false, chatInputValue := ""
             , nodes := [], chatTitle := "", sendBtnDisabled := false, calls := [] }).chatTitle
      = "0123456789012345678901234567890123456789") ∧
    ((ModernChat.addMessage "user"
        "012345678901234567890123456789012345678901234567890123456789"
        none { currentConversationId := none, isTyping := false, chatInputValue := ""
             , nodes := [], chatTitle := "", sendBtnDisabled := false, calls := [] }).chatTitle
      = "01234567890123456789012345678901234567890123456789...") := by
  constructor
  · exact (title_derivation_truncates_at_50
        { currentConversationId := none, isTyping := false, chatInputValue := ""
        , nodes := [], chatTitle := "", sendBtnDisabled := false, calls := [] }
        "0123456789012345678901234567890123456789" rfl).1.trans
      ((title_derivation_truncates_at_50
        { currentConversationId := none, isTyping := false, chatInputValue := ""
        , nodes := [], chatTitle := "", sendBtnDisabled := false, calls := [] }
        "0123456789012345678901234567890123456789" rfl).2.1 (by decide))
  · exact (title_derivation_truncates_at_50
        { currentConversationId := none, isTyping := false, chatInputValue := ""
        , nodes := [], chatTitle := "", sendBtnDisabled := false, calls := [] }
        "012345678901234567890123456789012345678901234567890123456789" rfl).1.trans
      ((((title_derivation_truncates_at_50
        { currentConversationId := none, isTyping := false, chatInputValue := ""
        , nodes := [], chatTitle := "", sendBtnDisabled := false, calls := [] }
        "012345678901234567890123456789012345678901234567890123456789" rfl).2.2
        (by decide)).1).trans (by decide))

/-- Helper: addMessage always appends exactly one message node. -/
theorem addMessage_nodes (t c : String) (srcs : Option (List ModernChat.Source))
    (s : ModernChat.ChatState) :
    (ModernChat.addMessage t c srcs s).nodes
      = s.nodes ++ [ModernChat.Node.msg t c (srcs.getD [])] := by
  rw [ModernChat.addMessage]
  split <;> rfl

/-- Helper: replaying a conversation leaves exactly the mapped message
nodes in the transcript, in order, after clearing it. -/
theorem renderConversation_nodes (msgs : List HistoryMgr.ServerMessage)
    (cs : ModernChat.ChatState) :
    (HistoryMgr.renderConversation msgs cs).nodes
      = msgs.map HistoryMgr.serverNode := by
  rw [HistoryMgr.renderConversation]
  suffices h : ∀ (cs2 : ModernChat.ChatState),
      (msgs.foldl (fun cs m =>
        ModernChat.addMessage (if m.role = "user" then "user" else "bot")
          m.content m.sources cs) cs2).nodes
        = cs2.nodes ++ msgs.map HistoryMgr.serverNode by
    have h2 := h { cs with nodes := [] }
    simpa using h2
  induction msgs with
  | nil => intro cs2; simp
  | cons m ms ih =>
      intro cs2
      simp only [List.foldl_cons, List.map_cons]
      rw [ih, addMessage_nodes]
      simp [HistoryMgr.serverNode]

/-- Helper: if a predicate holds exactly once in a list, the image of
its filtrate is the one matching key. -/
theorem map_filter_eq_single {α : Type} (f : α → String) (id : String) :
    ∀ l : List α, l.countP (fun a => f a == id) = 1 →
      (l.filter (fun a => f a == id)).map f = [id] := by
  intro l
  induction l with
  | nil => intro h; simp at h
  | cons a l ih =>
      intro h
      rw [List.countP_cons] at h
      by_cases ha : (f a == id) = true
      · have h0 : l.countP (fun a => f a == id) = 0 := by
          simp only [ha, if_true] at h; omega
        have hnil : l.filter (fun a => f a == id) = [] := by
          rw [List.filter_eq_nil_iff]
          intro x hx
          have := List.countP_eq_zero.mp h0 x hx
          simpa using this
        simp [List.filter_cons, ha, hnil, eq_of_beq ha]
      · have h1 : l.countP (fun a => f a == id) = 1 := by
          simp [ha] at h; omega
        simp only [List.filter_cons, if_neg ha]
        exact ih h1

/-- C8: when the conversation fetch succeeds with N messages and the
sidecar list mentions the loaded id exactly once, loadConversation clears
the transcript and renders exactly the N fetched messages in server
order, and afterwards exactly one history item carries the active mark,
the one whose id is the loaded conversation id. -/
theorem loadConversation_renders_and_activates (id : String)
    (msgs : List HistoryMgr.ServerMessage) (hs : HistoryMgr.HistState)
    (cs : ModernChat.ChatState)
    (h : hs.items.countP (fun it => it.conversationId == id) = 1) :
    ((HistoryMgr.loadConversation id (.ok msgs) hs cs).2.nodes
        = msgs.map HistoryMgr.serverNode) ∧
    ((HistoryMgr.loadConversation id (.ok msgs) hs cs).2.nodes.length
        = msgs.length) ∧
    (((HistoryMgr.loadConversation id (.ok msgs) hs cs).1.items.filter
        (fun it => it.active)).map (fun it => it.conversationId) = [id]) ∧
    ((HistoryMgr.loadConversation id (.ok msgs) hs cs).1.items.countP
        (fun it => it.active) = 1) := by
  have hbeq : ∀ a b : String, (some a == some b) = (a == b) := fun a b => rfl
  have hnodes : (HistoryMgr.loadConversation id (.ok msgs) hs cs).2.nodes
      = msgs.map HistoryMgr.serverNode := by
    rw [HistoryMgr.loadConversation]
    cases hf : (HistoryMgr.updateActiveHistory
        { hs with currentConversationId := some id }).conversations.find?
        (fun c => c.conversation_id == id) with
    | none => simpa [hf] using renderConversation_nodes msgs cs
    | some c => simpa [hf] using renderConversation_nodes msgs cs
  have hitems : (HistoryMgr.loadConversation id (.ok msgs) hs cs).1.items
      = hs.items.map (fun it => { it with active := it.conversationId == id }) := by
    rw [HistoryMgr.loadConversation]
    cases hf : (HistoryMgr.updateActiveHistory
        { hs with currentConversationId := some id }).conversations.find?
        (fun c => c.conversation_id == id) with
    | none => simp [hf, HistoryMgr.updateActiveHistory, hbeq]
    | some c => simp [hf, HistoryMgr.updateActiveHistory, hbeq]
  refine ⟨hnodes, by rw [hnodes, List.length_map], ?_, ?_⟩
  · rw [hitems, List.filter_map]
    rw [show ((fun it : HistoryMgr.HistoryItem => it.active) ∘
        (fun it : HistoryMgr.HistoryItem =>
          { it with active := it.conversationId == id }))
        = (fun it : HistoryMgr.HistoryItem => it.conversationId == id) from rfl]
    rw [List.map_map]
    exact map_filter_eq_single
      (fun it : HistoryMgr.HistoryItem => it.conversationId) id hs.items h
  · rw [hitems, List.countP_map]
    exact h

/-- C8 witness: loading a two-message conversation into a sidecar of
three entries renders two nodes and activates exactly the matching
entry. -/
theorem loadConversation_renders_and_activates_witness :
    (HistoryMgr.loadConversation "c2"
      (.ok [ { role := "user", content := "hi", sources := none }
           , { role := "assistant", content := "hello", sources := none } ])
      { conversations := [], currentConversationId := none
      , items := [ { conversationId := "c1", active := true, title := "a" }
                 , { conversationId := "c2", active := false, title := "b" }
                 , { conversationId := "c3", active := false, title := "c" } ] }
      { currentConversationId := none, isTyping := false, chatInputValue := ""
      , nodes := [ModernChat.Node.welcome], chatTitle := "", sendBtnDisabled := false
      , calls := [] }).2.nodes.length = 2 ∧
    ((HistoryMgr.loadConversation "c2"
      (.ok [ { role := "user", content := "hi", sources := none }
           , { role := "assistant", content := "hello", sources := none } ])
      { conversations := [], currentConversationId := none
      , items := [ { conversationId := "c1", active := true, title := "a" }
                 , { conversationId := "c2", active := false, title := "b" }
                 , { conversationId := "c3", active := false, title := "c" } ] }
      { currentConversationId := none, isTyping := false, chatInputValue := ""
      , nodes := [ModernChat.Node.welcome], chatTitle := "", sendBtnDisabled := false
      , calls := [] }).1.items.filter (fun it => it.active)).map
        (fun it => it.conversationId) = ["c2"] :=
  ⟨(loadConversation_renders_and_activates "c2"
      [ { role := "user", content := "hi", sources := none }
      , { role := "assistant", content := "hello", sources := none } ]
      { conversations := [], currentConversationId := none
      , items := [ { conversationId := "c1", active := true, title := "a" }
                 , { conversationId := "c2", active := false, title := "b" }
                 , { conversationId := "c3", active := false, title := "c" } ] }
      { currentConversationId := none, isTyping := false, chatInputValue := ""
      , nodes := [ModernChat.Node.welcome], chatTitle := "", sendBtnDisabled := false
      , calls := [] } (by decide)).2.1,
   (loadConversation_renders_and_activates "c2"
      [ { role := "user", content := "hi", sources := none }
      , { role := "assistant", content := "hello", sources := none } ]
      { conversations := [], currentConversationId := none
      , items := [ { conversationId := "c1", active := true, title := "a" }
                 , { conversationId := "c2", active := false, title := "b" }
                 , { conversationId := "c3", active := false, title := "c" } ] }
      { currentConversationId := none, isTyping := false, chatInputValue := ""
      , nodes := [ModernChat.Node.welcome], chatTitle := "", sendBtnDisabled := false
      , calls := [] } (by decide)).2.2.1⟩

/-- C1 evaluation at the failing interleaving: provider sign-in succeeds,
the session-change listener fires with the new user, then the backend
verify response arrives with success false and error "X".  The displayed
error does equal "X", but the listener has already advanced the state:
the main application surface is shown and the modal is hidden, because
checkAuthState calls handleAuthSuccess on mere possession of a provider
session. -/
theorem verify_failure_still_shows_main_surface :
    ((Part000.run
      [ .loginSubmit "user@mail.test" "pw123456"
      , .sessionChange (some { displayName := none, email := "user@mail.test" })
      , .providerSignInOk
      , .verifyResponse { displayName := none, email := "user@mail.test" }
          (.failure (some "X")) ] Part000.initState).errorText = "X") ∧
    ((Part000.run
      [ .loginSubmit "user@mail.test" "pw123456"
      , .sessionChange (some { displayName := none, email := "user@mail.test" })
      , .providerSignInOk
      , .verifyResponse { displayName := none, email := "user@mail.test" }
          (.failure (some "X")) ] Part000.initState).errorDisplay = "block") ∧
    ((Part000.run
      [ .loginSubmit "user@mail.test" "pw123456"
      , .sessionChange (some { displayName := none, email := "user@mail.test" })
      , .providerSignInOk
      , .verifyResponse { displayName := none, email := "user@mail.test" }
          (.failure (some "X")) ] Part000.initState).mainAppDisplay = "block") ∧
    ((Part000.run
      [ .loginSubmit "user@mail.test" "pw123456"
      , .sessionChange (some { displayName := none, email := "user@mail.test" })
      , .providerSignInOk
      , .verifyResponse { displayName := none, email := "user@mail.test" }
          (.failure (some "X")) ] Part000.initState).authModalDisplay = "none") := by
  decide

/-- C2 evaluation at the failing interleaving: a session-change event
reporting no session arrives after the verify request was issued; when
the stale verify success response is then applied, handleAuthSuccess
runs unconditionally, so the final state shows the main surface instead
of remaining Unauthenticated — no staleness check exists. -/
theorem stale_verify_success_overrides_signout :
    ((Part000.run
      [ .loginSubmit "user@mail.test" "pw123456"
      , .sessionChange (some { displayName := none, email := "user@mail.test" })
      , .providerSignInOk
      , .sessionChange none
      , .verifyResponse { displayName := none, email := "user@mail.test" }
          .success ] Part000.initState).mainAppDisplay = "block") ∧
    ((Part000.run
      [ .loginSubmit "user@mail.test" "pw123456"
      , .sessionChange (some { displayName := none, email := "user@mail.test" })
      , .providerSignInOk
      , .sessionChange none
      , .verifyResponse { displayName := none, email := "user@mail.test" }
          .success ] Part000.initState).authModalDisplay = "none") := by
  decide

/-- C3 evaluation at the failing input: when the provider sign-out throws,
the single try block of handleLogout catches it before the backend logout
line, so the backend logout request is never attempted. -/
theorem provider_signout_failure_skips_backend_logout :
    ((Part000.run [ .logoutSubmit, .providerSignOutErr ] Part000.initState).calls
      = [Part000.NetCall.providerSignOut]) ∧
    (Part000.NetCall.backendLogout ∉
      (Part000.run [ .logoutSubmit, .providerSignOutErr ] Part000.initState).calls) := by
  decide

/-- C4 counterexample: in the part_000 manager a sign-in attempt with an
empty email issues the provider sign-in network request anyway, and no
validation error is displayed, because handleLogin there has no
empty-field check. -/
theorem empty_email_login_still_calls_provider :
    ((Part000.run [Part000.Event.loginSubmit "" "secret123"] Part000.initState).calls
      = [Part000.NetCall.providerSignIn "" "secret123"]) ∧
    ((Part000.run [Part000.Event.loginSubmit "" "secret123"] Part000.initState).errorDisplay
      ≠ "block") := by
  decide

/-- C4 amended: in the compat manager (auth.js) a sign-in attempt with an
empty email or password makes no network call and shows a validation
message, and a registration attempt with a password shorter than 6
characters makes no network call; in the part_000 manager the same holds
for short-password registration (its sign-in performs no such check). -/
theorem local_validation_blocks_network
    (emailRaw password nameRaw emailRaw2 password2 name3 email3 password3 : String)
    (si su : CompatAuth.ProviderOutcome) (v v2 : Part000.VerifyResult)
    (s s2 : CompatAuth.AuthState) (s3 : Part000.AuthState)
    (hs : s.initialized = true) (hs2 : s2.initialized = true) :
    ((jsTrim emailRaw = "" ∨ password = "") →
      (CompatAuth.handleLogin emailRaw password si v s).calls = s.calls ∧
      (CompatAuth.handleLogin emailRaw password si v s).errorText
        = "Please fill in all fields" ∧
      (CompatAuth.handleLogin emailRaw password si v s).errorDisplay = "block") ∧
    (password2.length < 6 →
      (CompatAuth.handleRegister nameRaw emailRaw2 password2 su v2 s2).calls
        = s2.calls ∧
      (CompatAuth.handleRegister nameRaw emailRaw2 password2 su v2 s2).errorDisplay
        = "block") ∧
    (password3.length < 6 →
      (Part000.step (.registerSubmit name3 email3 password3) s3).calls = s3.calls ∧
      (Part000.step (.registerSubmit name3 email3 password3) s3).errorText
        = "Password must be at least 6 characters" ∧
      (Part000.step (.registerSubmit name3 email3 password3) s3).errorDisplay
        = "block") := by
  refine ⟨?_, ?_, ?_⟩
  · intro h
    rw [CompatAuth.handleLogin, if_neg (by simp [hs]), if_pos h]
    exact ⟨rfl, rfl, rfl⟩
  · intro h
    rw [CompatAuth.handleRegister, if_neg (by simp [hs2])]
    by_cases he : (jsTrim nameRaw = "" ∨ jsTrim emailRaw2 = "" ∨ password2 = "")
    · rw [if_pos he]
      exact ⟨rfl, rfl⟩
    · rw [if_neg he, if_pos h]
      exact ⟨rfl, rfl⟩
  · intro h
    rw [Part000.step]
    rw [if_pos h]
    exact ⟨rfl, rfl, rfl⟩

/-- C4 witness: a whitespace-only email blocks the compat sign-in with a
validation message and no network call; a 3-character password blocks
both registration paths. -/
theorem local_validation_blocks_network_witness :
    ((CompatAuth.handleLogin "   " "pw123456" (.err { code := none, message := none })
      .success
      { initialized := true, errorText := "", errorDisplay := "", loadingDisplay := ""
      , modalDisplay := "flex", reloadScheduled := false, calls := [] }).calls = []) ∧
    ((CompatAuth.handleLogin "   " "pw123456" (.err { code := none, message := none })
      .success
      { initialized := true, errorText := "", errorDisplay := "", loadingDisplay := ""
      , modalDisplay := "flex", reloadScheduled := false, calls := [] }).errorText
      = "Please fill in all fields") ∧
    ((CompatAuth.handleRegister "Ada" "a@mail.test" "abc" (.err { code := none, message := none })
      .success
      { initialized := true, errorText := "", errorDisplay := "", loadingDisplay := ""
      , modalDisplay := "flex", reloadScheduled := false, calls := [] }).calls = []) ∧
    ((Part000.step (.registerSubmit "Ada" "a@mail.test" "abc") Part000.initState).calls
      = []) := by
  have h := local_validation_blocks_network "   " "pw123456" "Ada" "a@mail.test" "abc"
    "Ada" "a@mail.test" "abc" (.err { code := none, message := none })
    (.err { code := none, message := none }) .success .success
    { initialized := true, errorText := "", errorDisplay := "", loadingDisplay := ""
    , modalDisplay := "flex", reloadScheduled := false, calls := [] }
    { initialized := true, errorText := "", errorDisplay := "", loadingDisplay := ""
    , modalDisplay := "flex", reloadScheduled := false, calls := [] }
    Part000.initState rfl rfl
  refine ⟨(h.1 (Or.inl (by decide))).1, (h.1 (Or.inl (by decide))).2.1,
    (h.2.1 (by decide)).1, (h.2.2 (by decide)).1⟩
